import Mathlib

/-!
Verification of the content-extraction engine (`fix_json_format`) and the
conversion-pipeline tools of `file_converter_server.py`.

The extraction engine is embedded as a total function over `List Char`
(`Chars`), mirroring the Python source statement by statement.  Python's
`json.loads` is modelled by `json_loads` below: a strict recursive-descent
parser producing `JVal` (JSON values), failing (`none`) exactly where
CPython's strict decoder raises `JSONDecodeError`.  Numeric literals —
including the `NaN`/`Infinity`/`-Infinity` constants Python accepts — are
stored as their raw text (`JVal.num` keeps the literal; no claim compares
numeric values), `\uXXXX` surrogate pairs are combined into the astral
character they encode, and a `\uXXXX` escape denoting a lone UTF-16
surrogate — which Python keeps as an unpaired surrogate in the result
string — is rejected, Lean `Char` being unable to hold it.

The conversion tools are embedded as pure functions of an effect environment
(`ConvEnv`) describing the outcome of each external action (download, mkdtemp,
base64 write, converter, move, upload) plus a filesystem state (`Fs`) that
tracks which ephemeral directories and files currently exist and which were
ever allocated.  Filesystem removal primitives (`shutil.rmtree`, `os.remove`)
are modelled as always succeeding.
-/

set_option maxRecDepth 4096

abbrev Chars := List Char

/-- Python whitespace: the characters for which `str.isspace()` holds,
the set stripped by `str.strip()` / `str.rstrip()` with no arguments and
matched by the regex class `\s` on unicode patterns (both use CPython's
`Py_UNICODE_ISSPACE`): ASCII U+0009–U+000D and the space, the separators
U+001C–U+001F, next-line U+0085, no-break space U+00A0, and the Unicode
space characters U+1680, U+2000–U+200A, U+2028, U+2029, U+202F, U+205F,
U+3000. -/
def isPyWs (c : Char) : Bool :=
  let n := c.toNat
  (0x09 ≤ n ∧ n ≤ 0x0d) || n = 0x20 || (0x1c ≤ n ∧ n ≤ 0x1f) || n = 0x85 || n = 0xa0 ||
  n = 0x1680 || (0x2000 ≤ n ∧ n ≤ 0x200a) || n = 0x2028 || n = 0x2029 ||
  n = 0x202f || n = 0x205f || n = 0x3000

/-- JSON inter-token whitespace accepted by `json.loads`. -/
def isJsonWs (c : Char) : Bool :=
  c = ' ' || c = '\t' || c = '\n' || c = '\r'

/-- Python `text.strip()` (both ends, default whitespace set). -/
def pyStrip (l : Chars) : Chars :=
  ((l.dropWhile isPyWs).reverse.dropWhile isPyWs).reverse

/-- Python `text.rstrip()` (default whitespace set). -/
def pyRstripWs (l : Chars) : Chars :=
  (l.reverse.dropWhile isPyWs).reverse

/-- Python `text.rstrip(set)` for an explicit character set. -/
def pyRstrip (set : Chars) (l : Chars) : Chars :=
  (l.reverse.dropWhile (fun c => set.contains c)).reverse

/-- Python `text.find(pat)` (index of leftmost occurrence), as an `Option`
instead of `-1`. -/
def listFind? (pat : Chars) : Chars → Option Nat
  | [] => if pat = [] then some 0 else none
  | c :: tl =>
    if pat.isPrefixOf (c :: tl) then some 0
    else (listFind? pat tl).map (· + 1)

/-- Python `pat in text` (substring containment). -/
def containsSub (pat l : Chars) : Bool :=
  (listFind? pat l).isSome

/-- Python `text.rfind(pat)` (index of rightmost occurrence). -/
def listRfind? (pat l : Chars) : Option Nat :=
  ((List.range (l.length + 1)).filter (fun i => pat.isPrefixOf (l.drop i))).getLast?

/-- Python `text.find(pat, start)`. -/
def listFindFrom? (pat l : Chars) (start : Nat) : Option Nat :=
  (listFind? pat (l.drop start)).map (· + start)

/-- Worker for `pyReplace`; the fuel is an upper bound on the input length,
so it never runs out before the input does. -/
def pyReplaceFuel (pat rep : Chars) : Nat → Chars → Chars
  | 0, l => l
  | _, [] => []
  | fuel + 1, c :: tl =>
    if pat.isPrefixOf (c :: tl) ∧ pat ≠ [] then
      rep ++ pyReplaceFuel pat rep fuel (tl.drop (pat.length - 1))
    else
      c :: pyReplaceFuel pat rep fuel tl

/-- Python `text.replace(pat, rep)`: every non-overlapping occurrence,
scanning left to right.  An empty `pat` leaves the text unchanged (the
source never calls `replace` with an empty pattern). -/
def pyReplace (pat rep : Chars) (l : Chars) : Chars :=
  pyReplaceFuel pat rep l.length l

/-- Escape-unescaping applied by the engine to every extracted candidate:
`.replace('\\n','\n').replace('\\r','\r').replace('\\t','\t').replace('\\"','"')`
in that fixed order. -/
def unescape4 (l : Chars) : Chars :=
  pyReplace ['\\', '"'] ['"']
    (pyReplace ['\\', 't'] ['\t']
      (pyReplace ['\\', 'r'] ['\r']
        (pyReplace ['\\', 'n'] ['\n'] l)))

/-! ## The `json.loads` model -/

/-- JSON values as produced by Python's `json.loads`.  Objects keep their
key/value pairs in source order (duplicates included); Python `dict`
semantics (`in`, `[]`, `len`, `values()`) are recovered by the `dict*`
helpers below.  `num` stores the raw numeric literal. -/
inductive JVal where
  | null : JVal
  | bool (b : Bool) : JVal
  | num (lit : Chars) : JVal
  | str (s : Chars) : JVal
  | arr (xs : List JVal) : JVal
  | obj (kvs : List (Chars × JVal)) : JVal
deriving Repr

/-- Recognizer used to state the spec's "plain text string" result claims. -/
def JVal.isStr : JVal → Bool
  | .str _ => true
  | _ => false

/-- Membership test matching Python `k in d` for a dict built from `kvs`. -/
def dictContains (kvs : List (Chars × JVal)) (k : Chars) : Bool :=
  kvs.any (fun kv => kv.1 = k)

/-- Lookup matching Python `d[k]`: the value of the last occurrence of the
key wins, as when `json.loads` builds a dict from duplicate keys. -/
def dictGet (kvs : List (Chars × JVal)) (k : Chars) : Option JVal :=
  ((kvs.filter (fun kv => kv.1 = k)).getLast?).map (fun kv => kv.2)

/-- Total variant of `dictGet`, used only under a `dictContains` guard. -/
def dictGetD (kvs : List (Chars × JVal)) (k : Chars) : JVal :=
  (dictGet kvs k).getD JVal.null

/-- Python `len(d)`: the number of distinct keys. -/
def dictLen (kvs : List (Chars × JVal)) : Nat :=
  ((kvs.map (fun kv => kv.1)).dedup).length

/-- Python `list(d.values())[0]` for a dict known to have exactly one
distinct key: all pairs share that key, so the dict's sole value is the
last-assigned one. -/
def dictSoleVal (kvs : List (Chars × JVal)) : JVal :=
  ((kvs.getLast?).map (fun kv => kv.2)).getD JVal.null

def hexVal (c : Char) : Option Nat :=
  if '0' ≤ c ∧ c ≤ '9' then some (c.toNat - '0'.toNat)
  else if 'a' ≤ c ∧ c ≤ 'f' then some (c.toNat - 'a'.toNat + 10)
  else if 'A' ≤ c ∧ c ≤ 'F' then some (c.toNat - 'A'.toNat + 10)
  else none

/-- Decode four hex digits into their numeric value. -/
def hex4val (a b c d : Char) : Option Nat := do
  let x ← hexVal a
  let y ← hexVal b
  let z ← hexVal c
  let w ← hexVal d
  pure (((x * 16 + y) * 16 + z) * 16 + w)

/-- String body parser: the characters after an opening quote, up to and
including the closing quote.  Returns the decoded content and the rest of
the input.  Mirrors the strict CPython decoder: unescaped control
characters (below U+0020) and unknown escapes are errors, and a high/low
`\uXXXX` surrogate pair is combined into the astral character it encodes.
A lone surrogate — which Python keeps as an unpaired surrogate in the
result `str` — is not representable as a Lean `Char` and is rejected. -/
def parseStringBody : Chars → Option (Chars × Chars)
  | [] => none
  | '"' :: rest => some ([], rest)
  | '\\' :: e :: rest =>
    match e, rest with
    | '"', r => (parseStringBody r).map (fun p => ('"' :: p.1, p.2))
    | '\\', r => (parseStringBody r).map (fun p => ('\\' :: p.1, p.2))
    | '/', r => (parseStringBody r).map (fun p => ('/' :: p.1, p.2))
    | 'b', r => (parseStringBody r).map (fun p => ('\x08' :: p.1, p.2))
    | 'f', r => (parseStringBody r).map (fun p => ('\x0c' :: p.1, p.2))
    | 'n', r => (parseStringBody r).map (fun p => ('\n' :: p.1, p.2))
    | 'r', r => (parseStringBody r).map (fun p => ('\r' :: p.1, p.2))
    | 't', r => (parseStringBody r).map (fun p => ('\t' :: p.1, p.2))
    | 'u', a :: b :: c :: d :: r =>
      match hex4val a b c d with
      | some n =>
        if n < 0xd800 ∨ 0xdfff < n then
          (parseStringBody r).map (fun p => (Char.ofNat n :: p.1, p.2))
        else if n ≤ 0xdbff then
          match r with
          | '\\' :: 'u' :: a2 :: b2 :: c2 :: d2 :: r2 =>
            match hex4val a2 b2 c2 d2 with
            | some m =>
              if 0xdc00 ≤ m ∧ m ≤ 0xdfff then
                (parseStringBody r2).map (fun p =>
                  (Char.ofNat (0x10000 + (n - 0xd800) * 0x400 + (m - 0xdc00)) :: p.1, p.2))
              else none
            | none => none
          | _ => none
        else none
      | none => none
    | _, _ => none
  | c :: rest =>
    if c.toNat < 0x20 then none
    else (parseStringBody rest).map (fun p => (c :: p.1, p.2))

def isDigit (c : Char) : Bool := '0' ≤ c ∧ c ≤ '9'

/-- Number literal parser following the JSON grammar
`-? (0 | [1-9][0-9]*) frac? exp?`; the literal text is kept verbatim. -/
def parseNumber (l : Chars) : Option (Chars × Chars) := do
  let (sign, l1) := match l with
    | '-' :: tl => (['-'], tl)
    | _ => ([], l)
  let intPart := l1.takeWhile isDigit
  let l2 := l1.dropWhile isDigit
  if intPart = [] then none
  else if intPart.length > 1 ∧ intPart.head? = some '0' then none
  else
    let (frac, l3) := match l2 with
      | '.' :: tl =>
        let ds := tl.takeWhile isDigit
        if ds = [] then ([], l2) else ('.' :: ds, tl.dropWhile isDigit)
      | _ => ([], l2)
    if l2 ≠ l3 ∨ frac = [] then
      match l3 with
      | e :: tl =>
        if e = 'e' ∨ e = 'E' then
          let (es, tl2) := match tl with
            | '+' :: tl2 => (['+'], tl2)
            | '-' :: tl2 => (['-'], tl2)
            | _ => ([], tl)
          let ds := tl2.takeWhile isDigit
          if ds = [] then none
          else some (sign ++ intPart ++ frac ++ e :: es ++ ds, tl2.dropWhile isDigit)
        else some (sign ++ intPart ++ frac, l3)
      | [] => some (sign ++ intPart ++ frac, l3)
    else none

mutual

/-- Value parser of the `json.loads` model.  The head of the input must be
the first character of the value (callers skip whitespace).  `fuel` bounds
the recursion depth; `json_loads` supplies more fuel than any input can
consume (at least one input character is consumed per two fuel units). -/
def parseVal : Nat → Chars → Option (JVal × Chars)
  | 0, _ => none
  | fuel + 1, l =>
    match l with
    | '\x7b' :: rest =>
      match rest.dropWhile isJsonWs with
      | '\x7d' :: r => some (JVal.obj [], r)
      | r => parseMembers fuel r []
    | '[' :: rest =>
      match rest.dropWhile isJsonWs with
      | ']' :: r => some (JVal.arr [], r)
      | r => parseElems fuel r []
    | '"' :: rest => (parseStringBody rest).map (fun p => (JVal.str p.1, p.2))
    | 't' :: rest =>
      if ['r', 'u', 'e'].isPrefixOf rest then some (JVal.bool true, rest.drop 3) else none
    | 'f' :: rest =>
      if ['a', 'l', 's', 'e'].isPrefixOf rest then some (JVal.bool false, rest.drop 4) else none
    | 'n' :: rest =>
      if ['u', 'l', 'l'].isPrefixOf rest then some (JVal.null, rest.drop 3) else none
    | 'N' :: rest =>
      if ['a', 'N'].isPrefixOf rest then some (JVal.num "NaN".data, rest.drop 2) else none
    | 'I' :: rest =>
      if ['n', 'f', 'i', 'n', 'i', 't', 'y'].isPrefixOf rest then
        some (JVal.num "Infinity".data, rest.drop 7)
      else none
    | '-' :: rest =>
      if ['I', 'n', 'f', 'i', 'n', 'i', 't', 'y'].isPrefixOf rest then
        some (JVal.num "-Infinity".data, rest.drop 8)
      else (parseNumber l).map (fun p => (JVal.num p.1, p.2))
    | c :: _ =>
      if isDigit c then (parseNumber l).map (fun p => (JVal.num p.1, p.2))
      else none
    | [] => none

/-- Parses `"key": value (, "key": value)* }` after a `{` known not to be
immediately closed, accumulating pairs in source order. -/
def parseMembers : Nat → Chars → List (Chars × JVal) → Option (JVal × Chars)
  | 0, _, _ => none
  | fuel + 1, l, acc =>
    match l with
    | '"' :: rest =>
      match parseStringBody rest with
      | some (key, r1) =>
        match r1.dropWhile isJsonWs with
        | ':' :: r2 =>
          match parseVal fuel (r2.dropWhile isJsonWs) with
          | some (v, r3) =>
            match r3.dropWhile isJsonWs with
            | ',' :: r4 =>
              match r4.dropWhile isJsonWs with
              | '"' :: r5 => parseMembers fuel ('"' :: r5) (acc ++ [(key, v)])
              | _ => none
            | '\x7d' :: r4 => some (JVal.obj (acc ++ [(key, v)]), r4)
            | _ => none
          | none => none
        | _ => none
      | none => none
    | _ => none

/-- Parses `value (, value)* ]` after a `[` known not to be immediately
closed. -/
def parseElems : Nat → Chars → List JVal → Option (JVal × Chars)
  | 0, _, _ => none
  | fuel + 1, l, acc =>
    match parseVal fuel l with
    | some (v, r1) =>
      match r1.dropWhile isJsonWs with
      | ',' :: r2 => parseElems fuel (r2.dropWhile isJsonWs) (acc ++ [v])
      | ']' :: r2 => some (JVal.arr (acc ++ [v]), r2)
      | _ => none
    | none => none

end

/-- Model of Python `json.loads(text)`: skip surrounding whitespace, parse
one value, and require the input to be exhausted; `none` stands for
`JSONDecodeError`. -/
def json_loads (l : Chars) : Option JVal :=
  match parseVal (2 * l.length + 2) (l.dropWhile isJsonWs) with
  | some (v, rest) => if rest.dropWhile isJsonWs = [] then some v else none
  | none => none

example : json_loads "\"abc\"".data = some (JVal.str "abc".data) := by rfl
example : json_loads "\x7b\"a\": \"b\"\x7d".data =
    some (JVal.obj [("a".data, JVal.str "b".data)]) := by rfl
example : json_loads "\x7b\"markdown_text\": null\x7d".data =
    some (JVal.obj [("markdown_text".data, JVal.null)]) := by rfl
example : json_loads "\x7b\"a\": 1, \"b\"\x7d".data = none := by rfl

/-! ## The extraction engine `fix_json_format` -/

/-- Literal `"markdown_text"` (quotes included), as tested by `'"markdown_text"' in text`. -/
def markerMD : Chars := "\"markdown_text\"".data

/-- Literal `"markdown_text":`, as tested by `'"markdown_text":' in text`. -/
def markerMDc : Chars := "\"markdown_text\":".data

/-- Literal `"markdown_text": "` — the `start_marker` of the source. -/
def startMarker : Chars := "\"markdown_text\": \"".data

def mdKey : Chars := "markdown_text".data

/-- Literal `"arguments"` tested by the nested-envelope branch. -/
def argMarker : Chars := "\"arguments\"".data

def argKey : Chars := "arguments".data

/-- Content-escaping worker for the regex preprocessing step: escapes
literal newline, carriage-return and tab inside one quoted run, in that
order. -/
def escCtl (content : Chars) : Chars :=
  pyReplace ['\t'] ['\\', 't']
    (pyReplace ['\r'] ['\\', 'r']
      (pyReplace ['\n'] ['\\', 'n'] content))

/-- Worker for `preprocess` with length fuel. -/
def preprocessFuel : Nat → Chars → Chars
  | 0, l => l
  | _, [] => []
  | fuel + 1, c :: tl =>
    if c = '"' then
      match listFind? ['"'] tl with
      | some j => '"' :: escCtl (tl.take j) ++ '"' :: preprocessFuel fuel (tl.drop (j + 1))
      | none => c :: tl
    else c :: preprocessFuel fuel tl

/-- Model of `re.sub(r'"([^"]*(?:\\n[^"]*)*)"', replace_newlines_in_strings, text)`.
Because `\` and `n` both match `[^"]`, the pattern is equivalent to
`"([^"]*)"`: quotes pair up greedily left to right and literal control
characters between a pair are escaped. -/
def preprocess (l : Chars) : Chars := preprocessFuel l.length l

/-- Attempted match of `"key":\s*"([^"]*)"` anchored at the head of `l`. -/
def matchKeyAt (key l : Chars) : Option Chars :=
  let lit := '"' :: key ++ ['"', ':']
  if lit.isPrefixOf l then
    match (l.drop lit.length).dropWhile isPyWs with
    | '"' :: tl => (listFind? ['"'] tl).map (fun j => tl.take j)
    | _ => none
  else none

/-- Model of `re.search(r'"key":\s*"([^"]*(?:\\n[^"]*)*)"', text, re.DOTALL)`:
the captured value of the leftmost match. -/
def searchKey (key : Chars) : Chars → Option Chars
  | [] => none
  | c :: tl =>
    match matchKeyAt key (c :: tl) with
    | some content => some content
    | none => searchKey key tl

/-- Attempted match of `"([^"]+)":\s*"([^"]*)"` anchored at the head of
`l`; returns (name, value, rest after the match). -/
def matchKVAt (l : Chars) : Option (Chars × Chars × Chars) :=
  match l with
  | '"' :: tl =>
    match listFind? ['"'] tl with
    | some j =>
      if j = 0 then none
      else
        match tl.drop (j + 1) with
        | ':' :: r2 =>
          match r2.dropWhile isPyWs with
          | '"' :: tv =>
            (listFind? ['"'] tv).map (fun k => (tl.take j, tv.take k, tv.drop (k + 1)))
          | _ => none
        | _ => none
    | none => none
  | _ => none

def findallKVFuel : Nat → Chars → List (Chars × Chars)
  | 0, _ => []
  | _, [] => []
  | fuel + 1, c :: tl =>
    match matchKVAt (c :: tl) with
    | some (n, v, rest) => (n, v) :: findallKVFuel fuel rest
    | none => findallKVFuel fuel tl

/-- Model of `re.findall(r'"([^"]+)":\s*"([^"]*(?:\\n[^"]*)*)"', text, re.DOTALL)`:
non-overlapping matches, left to right. -/
def findallKV (l : Chars) : List (Chars × Chars) := findallKVFuel l.length l

/-- The source's `end_patterns = ['"}', '",', '"}', '"']` list. -/
def endPatterns : List Chars := [['"', '\x7d'], ['"', ','], ['"', '\x7d'], ['"']]

/-- First pattern (in list order) found at a strictly positive index; the
loop `end_pos = remaining.find(pattern); if end_pos > 0: return` skips both
absent patterns and matches at index 0. -/
def findEndPat (l : Chars) : Option Nat :=
  (endPatterns.filterMap (fun p =>
    match listFind? p l with
    | some e => if 0 < e then some e else none
    | none => none)).head?

/-- Escaped-JSON-string step (source lines 368–375): the input starts and
ends with `"`; `json.loads` it, else strip the outer quote pair. -/
def stage5 (t : Chars) : JVal :=
  match json_loads t with
  | some v => v
  | none => if 2 < t.length then JVal.str (t.drop 1).dropLast else JVal.str t

/-- Truncated-`markdown_text` repair step (source lines 377–418). -/
def stage6 (t : Chars) : Option JVal :=
  if t.head? = some '\x7b' ∧ containsSub markerMD t then
    match json_loads t with
    | some (JVal.obj kvs) =>
      if dictContains kvs mdKey then some (dictGetD kvs mdKey) else none
    | some _ => none
    | none =>
      if containsSub markerMDc t ∧ ¬ (['\x7d'].isSuffixOf (pyRstripWs t)) then
        match listFind? startMarker t with
        | some p =>
          let content := t.drop (p + startMarker.length)
          if ¬ (['"', '\x7d'].isSuffixOf content) ∧ ¬ (['"', ','].isSuffixOf content) then
            let c1 := pyRstripWs content
            let c2 :=
              if ['\n'].isSuffixOf c1 ∨ ['\n', '\n'].isSuffixOf c1 then pyRstrip ['\n'] c1
              else c1
            let fixedJson := "\x7b\"markdown_text\": \"".data ++ c2 ++ "\"\x7d".data
            match json_loads fixedJson with
            | some (JVal.obj kvs) =>
              if dictContains kvs mdKey then some (dictGetD kvs mdKey) else none
            | some _ => none
            | none => some (JVal.str c2)
          else none
        | none => none
      else none
  else none

/-- Nested-envelope step (source lines 420–465).  A non-string `arguments`
value or a non-string inner `markdown_text` value raises inside the block
and is swallowed by its `except Exception`, so those cases fall through. -/
def stage7 (t : Chars) : Option JVal :=
  if t.head? = some '\x7b' ∧ containsSub argMarker t then
    match json_loads t with
    | some (JVal.obj kvs) =>
      if dictContains kvs argKey then
        match dictGetD kvs argKey with
        | JVal.str s =>
          match json_loads s with
          | some (JVal.obj inner) =>
            if dictContains inner mdKey then
              match dictGetD inner mdKey with
              | JVal.str c => some (JVal.str (unescape4 c))
              | _ => none
            else none
          | some _ => none
          | none =>
            if containsSub markerMD s then
              match listFind? startMarker s with
              | some p =>
                let remaining := s.drop (p + startMarker.length)
                match findEndPat remaining with
                | some e => some (JVal.str (unescape4 (remaining.take e)))
                | none => none
              | none => none
            else none
        | _ => none
      else none
    | some _ => none
    | none => none
  else none

/-- The recognized-content-key priority list of the source. -/
def priorityFields : List Chars :=
  ["markdown_text", "text", "content", "message", "html_content", "input_file"].map String.data

/-- Escape-unescaping applied to extracted values only when they are
strings (`isinstance(value, str)` in the source). -/
def unescIfStr : JVal → JVal
  | JVal.str s => JVal.str (unescape4 s)
  | v => v

def firstPriorityVal (kvs : List (Chars × JVal)) : Option JVal :=
  priorityFields.findSome? (fun k => if dictContains kvs k then some (dictGetD kvs k) else none)

/-- Generic-object step (source lines 467–515): preprocess, parse, return
the highest-priority recognized field, else the sole value of a singleton
object. -/
def stage8 (t : Chars) : Option JVal :=
  if t.head? = some '\x7b' then
    match json_loads (preprocess t) with
    | some (JVal.obj kvs) =>
      match firstPriorityVal kvs with
      | some v => some (unescIfStr v)
      | none => if dictLen kvs = 1 then some (unescIfStr (dictSoleVal kvs)) else none
    | some _ => none
    | none => none
  else none

/-- Regex field-scan step (source lines 517–538): six `re.search` calls in
priority order. -/
def stage9 (t : Chars) : Option JVal :=
  priorityFields.findSome? (fun k => (searchKey k t).map (fun c => JVal.str (unescape4 c)))

def keysFour : List Chars := ["markdown_text", "text", "content", "message"].map String.data

/-- Looser `re.findall` step (source lines 540–566): first match with a
recognized name, else the first match outright. -/
def stage10 (t : Chars) : Option JVal :=
  match findallKV t with
  | [] => none
  | (n, v) :: rest =>
    match ((n, v) :: rest).findSome? (fun kv =>
        if keysFour.contains kv.1 then some kv.2 else none) with
    | some fv => some (JVal.str (unescape4 fv))
    | none => some (JVal.str (unescape4 v))

/-- Direct-extraction step (source lines 570–587): from the marker to the
last quote of the whole text. -/
def stage11 (t : Chars) : Option JVal :=
  match listFind? startMarker t with
  | some p =>
    let sc := p + startMarker.length
    match listRfind? ['"'] t with
    | some eq => if sc < eq then some (JVal.str (unescape4 ((t.drop sc).take (eq - sc)))) else none
    | none => none
  | none => none

/-- Brute-force step (source lines 589–613): `find('"}')`, falling back to
`rfind('"')` only when `'"}'` is absent. -/
def stage12 (t : Chars) : Option JVal :=
  if containsSub markerMD t then
    match listFind? startMarker t with
    | some p =>
      let remaining := t.drop (p + startMarker.length)
      let ep := match listFind? ['"', '\x7d'] remaining with
        | some e => some e
        | none => listRfind? ['"'] remaining
      match ep with
      | some e => if 0 < e then some (JVal.str (unescape4 (remaining.take e))) else none
      | none => none
    | none => none
  else none

/-- Final generic step (source lines 615–661): the pattern loop, then
`rfind('"')`, then the whole remainder with trailing `\n\r ` stripped. -/
def stage13 (t : Chars) : Option JVal :=
  if containsSub markerMD t then
    match listFind? startMarker t with
    | some p =>
      let remaining := t.drop (p + startMarker.length)
      match findEndPat remaining with
      | some e => some (JVal.str (unescape4 (remaining.take e)))
      | none =>
        match listRfind? ['"'] remaining with
        | some e =>
          if 0 < e then some (JVal.str (unescape4 (remaining.take e)))
          else some (JVal.str (unescape4 (pyRstrip "\n\r ".data remaining)))
        | none => some (JVal.str (unescape4 (pyRstrip "\n\r ".data remaining)))
    | none => none
  else none

/-- The extraction engine `fix_json_format` over character lists, stage by
stage in source order.  The result is the Python return value: a `JVal`
whose `str` case covers every plain-text return. -/
def fixJson (x : Chars) : JVal :=
  if x = [] then JVal.str []
  else
    let t := pyStrip x
    if t.head? ≠ some '\x7b' ∧ t.head? ≠ some '"' ∧ containsSub ['\n'] t then JVal.str t
    else if t.head? ≠ some '\x7b' ∧ t.head? ≠ some '"' then JVal.str t
    else if t.head? = some '"' ∧ ['"'].isSuffixOf t then stage5 t
    else
      match stage6 t with
      | some v => v
      | none =>
        match stage7 t with
        | some v => v
        | none =>
          match stage8 t with
          | some v => v
          | none =>
            match stage9 t with
            | some v => v
            | none =>
              match stage10 t with
              | some v => v
              | none =>
                match stage11 t with
                | some v => v
                | none =>
                  match stage12 t with
                  | some v => v
                  | none =>
                    match stage13 t with
                    | some v => v
                    | none => JVal.str t

/-- The extraction engine on Lean strings. -/
def fix_json_format (s : String) : JVal := fixJson s.data

example : fix_json_format "hello" = JVal.str "hello".data := by rfl
example : fix_json_format " a" = JVal.str "a".data := by rfl
example : fix_json_format "\x7b\"markdown_text\": null\x7d" = JVal.null := by rfl
example : fix_json_format "\x7b\"markdown_text\": \"v\"\x7d" = JVal.str "v".data := by rfl

/-! ## The conversion tools

Each tool is a pure function of an effect environment `ConvEnv` (outcomes of
the external actions it may perform) and returns the Python result dict
together with the final filesystem state.  `Except.error e` stands for the
corresponding Python operation raising with message `e`.  The
`isinstance`-based type guards of the source are inexpressible here because
the arguments are already typed, and the CPython text of exception messages
interpolated via `str(e)` is abstracted to the environment's message. -/

/-- Result-dict values: the tools only ever place booleans and strings at
the top level. -/
inductive RVal where
  | vstr (s : String) : RVal
  | vbool (b : Bool) : RVal
deriving Repr, DecidableEq

abbrev RDict := List (String × RVal)

/-- The success shape `{"success": True, "output_file": ..., "download_url": ...}`. -/
def okResult (output_file download_url : String) : RDict :=
  [("success", RVal.vbool true), ("output_file", RVal.vstr output_file),
   ("download_url", RVal.vstr download_url)]

/-- The failure shape `{"success": False, "error": ...}`. -/
def errResult (msg : String) : RDict :=
  [("success", RVal.vbool false), ("error", RVal.vstr msg)]

def isSuccessShape : RDict → Bool
  | [("success", RVal.vbool true), ("output_file", RVal.vstr _), ("download_url", RVal.vstr _)] =>
    true
  | _ => false

def isFailureShape : RDict → Bool
  | [("success", RVal.vbool false), ("error", RVal.vstr _)] => true
  | _ => false

/-- Filesystem state: ephemeral directories and tracked loose temp files
currently existing, plus a log of every directory ever allocated. -/
structure Fs where
  dirs : List String
  files : List String
  everDirs : List String
deriving Repr, DecidableEq

def Fs.empty : Fs := ⟨[], [], []⟩

/-- Model of `tempfile.mkdtemp()`. -/
def Fs.mkdtemp (fs : Fs) (d : String) : Fs :=
  { fs with dirs := fs.dirs ++ [d], everDirs := fs.everDirs ++ [d] }

/-- Model of `shutil.rmtree(d)` (removal always succeeds, see module
comment). -/
def Fs.rmtree (fs : Fs) (d : String) : Fs :=
  { fs with dirs := fs.dirs.filter (fun x => x ≠ d) }

/-- Model of `tempfile.NamedTemporaryFile(delete=False)` tracking. -/
def Fs.addFile (fs : Fs) (f : String) : Fs :=
  { fs with files := fs.files ++ [f] }

/-- Model of `for f in temp_files: os.remove(f)`. -/
def Fs.removeFiles (fs : Fs) (ts : List String) : Fs :=
  { fs with files := fs.files.filter (fun x => ¬ ts.contains x) }

/-- Outcomes of the external actions one conversion request may perform.
`tempDirInner` is the name `mkdtemp` hands to a nested tool invocation
(`markdown2pdf` delegates to `convert_html_to_pdf`, which allocates its
own directory). -/
structure ConvEnv where
  download : Except String String
  tempDir : String
  now : Nat
  b64write : Except String Unit
  convert : Except String Unit
  move : Except String Unit
  upload : Except String Bool
  pandocAvailable : Bool
  tempDirInner : String
deriving Repr

def OUTPUT_DIR : String := "/root/files"

/-- Source `get_download_url`: host and port are hardcoded. -/
def get_download_url (filename : String) : String :=
  "http://8.156.74.79:8001/" ++ filename

/-- Python truthiness of an optional string argument. -/
def optTruthy : Option String → Bool
  | some s => s ≠ ""
  | none => false

def isUrl (s : String) : Bool :=
  "http://".data.isPrefixOf s.data || "https://".data.isPrefixOf s.data

/-- Conversion/staging tail of `convert_docx_to_pdf` (source lines
742–786): the library-conversion block, the move to the durable location,
and the final cleanup. -/
def docx2pdfTail (env : ConvEnv) (temp_files : List String) (fs : Fs) : RDict × Fs :=
  match env.convert with
  | .error e =>
    (errResult ("Error converting DOCX to PDF: " ++ e),
     (fs.rmtree env.tempDir).removeFiles temp_files)
  | .ok _ =>
    let fname := "output_" ++ toString env.now ++ ".pdf"
    match env.move with
    | .error e =>
      (errResult ("Error moving output file: " ++ e),
       (fs.rmtree env.tempDir).removeFiles temp_files)
    | .ok _ =>
      (okResult (OUTPUT_DIR ++ "/" ++ fname) (get_download_url fname),
       (fs.rmtree env.tempDir).removeFiles temp_files)

/-- Body of `convert_docx_to_pdf` after URL resolution (source lines
714–741): the missing-input check, `mkdtemp`, and the base64 branch.  On a
base64 write failure the source removes only the directory, not the
tracked temp files. -/
def docx2pdfMain (env : ConvEnv) (input_file file_content_base64 : Option String)
    (temp_files : List String) (fs : Fs) : RDict × Fs :=
  if input_file = none ∧ file_content_base64 = none then
    (errResult "You must provide either input_file or file_content_base64", fs)
  else
    let fs := fs.mkdtemp env.tempDir
    if optTruthy file_content_base64 then
      match env.b64write with
      | .error e =>
        (errResult ("Error processing input file content: " ++ e), fs.rmtree env.tempDir)
      | .ok _ => docx2pdfTail env temp_files fs
    else
      docx2pdfTail env temp_files fs

/-- The `docx2pdf` tool (source lines 667–789). -/
def convert_docx_to_pdf (env : ConvEnv) (input_file file_content_base64 : Option String) :
    RDict × Fs :=
  if optTruthy input_file ∧ isUrl (input_file.getD "") then
    match env.download with
    | .error e => (errResult ("Error downloading file from URL: " ++ e), Fs.empty)
    | .ok p => docx2pdfMain env (some p) file_content_base64 [p] (Fs.empty.addFile p)
  else
    docx2pdfMain env input_file file_content_base64 [] Fs.empty

/-- Conversion/staging/upload tail of `convert_pdf_to_docx` (source lines
874–943).  After a successful upload the success path evaluates the
undefined name `temp_html_file` (line 935), raising `NameError`, which the
outer handler maps to the failure shape — with no cleanup, since the
`NameError` fires before the `rmtree`/`os.remove` calls of that path.  The
two upload-failure returns (lines 923 and 927) likewise perform no
cleanup. -/
def pdf2docxTail (env : ConvEnv) (temp_files : List String) (fs : Fs) : RDict × Fs :=
  match env.convert with
  | .error e =>
    (errResult ("Error converting PDF to DOCX: " ++ e),
     (fs.rmtree env.tempDir).removeFiles temp_files)
  | .ok _ =>
    match env.move with
    | .error e =>
      (errResult ("Error moving output file: " ++ e),
       (fs.rmtree env.tempDir).removeFiles temp_files)
    | .ok _ =>
      match env.upload with
      | .error e => (errResult ("自动上传到静态服务器异常: " ++ e), fs)
      | .ok false =>
        (errResult ("自动上传到静态服务器失败: /root/files/output_" ++ toString env.now ++ ".docx"),
         fs)
      | .ok true =>
        (errResult "Error converting PDF to DOCX: name \x27temp_html_file\x27 is not defined",
         fs)

/-- Body of `convert_pdf_to_docx` after URL resolution (source lines
837–873). -/
def pdf2docxMain (env : ConvEnv) (input_file file_content_base64 : Option String)
    (temp_files : List String) (fs : Fs) : RDict × Fs :=
  if input_file = none ∧ file_content_base64 = none then
    (errResult "You must provide either input_file or file_content_base64", fs)
  else
    let fs := fs.mkdtemp env.tempDir
    if optTruthy file_content_base64 then
      match env.b64write with
      | .error e =>
        (errResult ("Error processing input file content: " ++ e), fs.rmtree env.tempDir)
      | .ok _ => pdf2docxTail env temp_files fs
    else
      pdf2docxTail env temp_files fs

/-- The `pdf2docx` tool (source lines 791–943). -/
def convert_pdf_to_docx (env : ConvEnv) (input_file file_content_base64 : Option String) :
    RDict × Fs :=
  if optTruthy input_file ∧ isUrl (input_file.getD "") then
    match env.download with
    | .error e => (errResult ("Error downloading file from URL: " ++ e), Fs.empty)
    | .ok p => pdf2docxMain env (some p) file_content_base64 [p] (Fs.empty.addFile p)
  else
    pdf2docxMain env input_file file_content_base64 [] Fs.empty

/-- Post-processing block of `markdown2docx` at source lines 1683–1710:
re-parse a still-JSON-looking corrected text and pull out `markdown_text`,
else extract between the marker and `find('"}', start)` / `rfind('"')`.
A non-string parsed value is returned as-is; the next block's
`.startswith` then raises. -/
def mdPostA (s : Chars) : JVal :=
  if s.head? = some '\x7b' ∧ containsSub markerMD s then
    match json_loads s with
    | some (JVal.obj kvs) =>
      if dictContains kvs mdKey then dictGetD kvs mdKey else JVal.str s
    | some _ => JVal.str s
    | none =>
      match listFind? startMarker s with
      | some p =>
        let sc := p + startMarker.length
        let ep := match listFindFrom? ['"', '\x7d'] s sc with
          | some e => some e
          | none => listRfind? ['"'] s
        match ep with
        | some e =>
          if sc < e then JVal.str (unescape4 ((s.drop sc).take (e - sc))) else JVal.str s
        | none => JVal.str s
      | none => JVal.str s
  else JVal.str s

/-- Post-processing block of `markdown2docx` at source lines 1714–1739 (the
pattern loop only). -/
def mdPostB (s : Chars) : Chars :=
  if s.head? = some '\x7b' ∧ containsSub markerMD s then
    match listFind? startMarker s with
    | some p =>
      let remaining := s.drop (p + startMarker.length)
      match findEndPat remaining with
      | some e => unescape4 (remaining.take e)
      | none => s
    | none => s
  else s

/-- Post-processing block of `markdown2docx` at source lines 1743–1781: the
pattern loop, then — only when the updated text still starts with `{` — a
backward search over the previously computed remainder. -/
def mdPostC (s : Chars) : Chars :=
  if s.head? = some '\x7b' ∧ containsSub markerMD s then
    match listFind? startMarker s with
    | some p =>
      let remaining := s.drop (p + startMarker.length)
      let s1 := match findEndPat remaining with
        | some e => unescape4 (remaining.take e)
        | none => s
      if s1.head? = some '\x7b' then
        match listRfind? ['"'] remaining with
        | some e => if 0 < e then unescape4 (remaining.take e) else s1
        | none => s1
      else s1
    | none => s
  else s

/-- Pandoc/staging/upload tail of `markdown2docx` (source lines 1802–1871).
Pandoc failures of any kind (unavailable, non-zero exit, exception, missing
output) are collapsed into `pandocAvailable` / `convert`.  The two
upload-failure returns (lines 1857 and 1861) perform no cleanup. -/
def markdown2docxTail (env : ConvEnv) (fs : Fs) : RDict × Fs :=
  if ¬ env.pandocAvailable then
    (errResult "Pandoc 未安装或不可用，请先在服务器安装 pandoc。", fs.rmtree env.tempDir)
  else
    match env.convert with
    | .error e => (errResult ("Pandoc 转换失败: " ++ e), fs.rmtree env.tempDir)
    | .ok _ =>
      match env.move with
      | .error e => (errResult ("Error moving output file: " ++ e), fs.rmtree env.tempDir)
      | .ok _ =>
        match env.upload with
        | .error e => (errResult ("自动上传到静态服务器异常: " ++ e), fs)
        | .ok false =>
          (errResult ("自动上传到静态服务器失败: /root/files/output_" ++ toString env.now ++ ".docx"),
           fs)
        | .ok true =>
          let fname := "output_" ++ toString env.now ++ ".docx"
          (okResult (OUTPUT_DIR ++ "/" ++ fname) (get_download_url fname),
           fs.rmtree env.tempDir)

/-- The `markdown2docx` tool (source lines 1599–1874).  A non-string value
escaping `fix_json_format` or block A makes the following `.startswith`
raise `AttributeError`, mapped by the outer handler to the failure shape
(message abstracted). -/
def markdown2docx (env : ConvEnv) (markdown_text : String) (arguments : Option String) :
    RDict × Fs :=
  let inputText? : Option String :=
    if markdown_text ≠ "" then some markdown_text
    else if optTruthy arguments then arguments
    else none
  match inputText? with
  | none => (errResult "没有找到有效的输入内容，请提供markdown_text或arguments参数", Fs.empty)
  | some input_text =>
    match fixJson input_text.data with
    | JVal.str s0 =>
      match mdPostA s0 with
      | JVal.str s1 =>
        let s2 := mdPostC (mdPostB s1)
        if pyStrip s2 = [] then
          (errResult "修正后的markdown内容为空，请检查输入格式", Fs.empty)
        else
          markdown2docxTail env (Fs.empty.mkdtemp env.tempDir)
      | _ => (errResult "Error converting Markdown to DOCX: AttributeError", Fs.empty)
    | _ => (errResult "Error converting Markdown to DOCX: AttributeError", Fs.empty)

/-- ASCII lowering modelling `str.lower()` on the format names the source
compares (all ASCII). -/
def lowerChar (c : Char) : Char :=
  if 'A' ≤ c ∧ c ≤ 'Z' then Char.ofNat (c.toNat + 32) else c

/-- Python `s.lower()` over the characters of a format-name argument. -/
def pyLower (s : String) : Chars := s.data.map lowerChar

/-- The source's `valid_formats` list of `convert_image`, also the
image-format set of `convert_file`'s wildcard branch. -/
def valid_image_formats : List Chars :=
  ["jpg", "jpeg", "png", "webp", "gif", "bmp", "tiff"].map String.data

/-- Resources of a nested tool invocation merged into the caller's view. -/
def Fs.union (a b : Fs) : Fs :=
  ⟨a.dirs ++ b.dirs, a.files ++ b.files, a.everDirs ++ b.everDirs⟩

/-- Python `result.get("success")` truthiness on a result dict. -/
def rdSuccess : RDict → Bool
  | ("success", RVal.vbool b) :: _ => b
  | _ => false

/-- Python `result.get(key)` for the string fields of a result dict. -/
def rdGetStrD (d : RDict) (k : String) : String :=
  match (d.filter (fun kv => kv.1 = k)).head? with
  | some (_, RVal.vstr s) => s
  | _ => ""

/-- Conversion/staging tail of `convert_image` (source lines 1036–1067). -/
def imageTail (env : ConvEnv) (temp_files : List String) (fs : Fs) (outFmt : Chars) :
    RDict × Fs :=
  match env.convert with
  | .error e =>
    (errResult ("Error during image conversion: " ++ e),
     (fs.rmtree env.tempDir).removeFiles temp_files)
  | .ok _ =>
    match env.move with
    | .error e =>
      (errResult ("Error moving output file: " ++ e),
       (fs.rmtree env.tempDir).removeFiles temp_files)
    | .ok _ =>
      let fname := "output_" ++ toString env.now ++ "." ++ String.mk outFmt
      (okResult (OUTPUT_DIR ++ "/" ++ fname) (get_download_url fname),
       (fs.rmtree env.tempDir).removeFiles temp_files)

/-- Body of `convert_image` after URL resolution (source lines 998–1035).
On a missing `input_format` in base64 mode the source removes only the
directory (lines 1005–1008); on a base64 write failure it removes both the
directory and the tracked files (lines 1017–1023).  The path-mode `except`
(lines 1029–1035) guards operations that cannot raise and is dead. -/
def imageMain (env : ConvEnv) (input_file file_content_base64 output_format input_format :
    Option String) (temp_files : List String) (fs : Fs) : RDict × Fs :=
  if input_file = none ∧ file_content_base64 = none then
    (errResult "You must provide either input_file or file_content_base64", fs)
  else if ¬ optTruthy output_format ∨
      ¬ (valid_image_formats.contains (pyLower (output_format.getD ""))) then
    (errResult ("Unsupported output format: " ++ output_format.getD "None" ++
      ". Supported formats: jpg, jpeg, png, webp, gif, bmp, tiff"), fs)
  else
    let fs := fs.mkdtemp env.tempDir
    if optTruthy file_content_base64 then
      if ¬ optTruthy input_format then
        (errResult "input_format is required when using file_content_base64",
         fs.rmtree env.tempDir)
      else
        match env.b64write with
        | .error e =>
          (errResult ("Error processing input file content: " ++ e),
           (fs.rmtree env.tempDir).removeFiles temp_files)
        | .ok _ => imageTail env temp_files fs (pyLower (output_format.getD ""))
    else imageTail env temp_files fs (pyLower (output_format.getD ""))

/-- The `convert_image` tool (source lines 946–1070). -/
def convert_image (env : ConvEnv)
    (input_file file_content_base64 output_format input_format : Option String) :
    RDict × Fs :=
  if optTruthy input_file ∧ isUrl (input_file.getD "") then
    match env.download with
    | .error e => (errResult ("Error downloading image from URL: " ++ e), Fs.empty)
    | .ok p =>
      imageMain env (some p) file_content_base64 output_format input_format [p]
        (Fs.empty.addFile p)
  else imageMain env input_file file_content_base64 output_format input_format [] Fs.empty

/-- Body of `convert_excel_to_csv` after URL resolution (source lines
1110–1122).  A `None` `input_file` raises `AttributeError` at
`input_file.lower()` and lands in the outer handler; a conversion failure
returns without removing the downloaded temp file. -/
def excelRest (env : ConvEnv) (input_file : Option String) (temp_files : List String)
    (fs : Fs) : RDict × Fs :=
  match input_file with
  | none => (errResult "Error converting Excel to CSV: AttributeError", fs)
  | some f =>
    if ¬ (".xls".data.isSuffixOf (pyLower f) ∨ ".xlsx".data.isSuffixOf (pyLower f)) then
      (errResult ("File must be an Excel file (.xls or .xlsx), got: " ++ f), fs)
    else
      match env.convert with
      | .error e => (errResult ("Error converting Excel to CSV: " ++ e), fs)
      | .ok _ =>
        let fname := "output_" ++ toString env.now ++ ".csv"
        (okResult (OUTPUT_DIR ++ "/" ++ fname) (get_download_url fname),
         fs.removeFiles temp_files)

/-- The `excel2csv` tool (source lines 1073–1122); it allocates no working
directory. -/
def convert_excel_to_csv (env : ConvEnv) (input_file : Option String) : RDict × Fs :=
  if optTruthy input_file ∧ isUrl (input_file.getD "") then
    match env.download with
    | .error e => (errResult ("Error downloading excel from URL: " ++ e), Fs.empty)
    | .ok p => excelRest env (some p) [p] (Fs.empty.addFile p)
  else excelRest env input_file [] Fs.empty

/-- Core of `convert_html_to_pdf` after the `fix_json_format` correction
(source lines 1170–1185).  The `mkdtemp` directory is never used and is
leaked when `write_pdf` raises (the handler at line 1184 performs no
cleanup); URL, file and inline-string rendering are collapsed into
`env.convert`. -/
def html2pdfCore (env : ConvEnv) (input_file html_content : Option String) : RDict × Fs :=
  let fs := Fs.empty.mkdtemp env.tempDir
  match html_content with
  | some _ =>
    match env.convert with
    | .error e => (errResult ("Error converting HTML to PDF: " ++ e), fs)
    | .ok _ =>
      let fname := "output_" ++ toString env.now ++ ".pdf"
      (okResult (OUTPUT_DIR ++ "/" ++ fname) (get_download_url fname), fs.rmtree env.tempDir)
  | none =>
    if optTruthy input_file then
      match env.convert with
      | .error e => (errResult ("Error converting HTML to PDF: " ++ e), fs)
      | .ok _ =>
        let fname := "output_" ++ toString env.now ++ ".pdf"
        (okResult (OUTPUT_DIR ++ "/" ++ fname) (get_download_url fname), fs.rmtree env.tempDir)
    else (errResult "You must provide either input_file or html_content", fs.rmtree env.tempDir)

/-- The `html2pdf` tool (source lines 1126–1185).  A truthy `html_content`
is first run through `fix_json_format`; a non-string result raises at the
following `len()` / `HTML(string=...)` call and lands in the outer handler
(message abstracted). -/
def convert_html_to_pdf (env : ConvEnv) (input_file html_content : Option String) :
    RDict × Fs :=
  match html_content with
  | some h =>
    if h ≠ "" then
      match fixJson h.data with
      | JVal.str s => html2pdfCore env input_file (some (String.mk s))
      | _ => (errResult "Error converting HTML to PDF: TypeError", Fs.empty)
    else html2pdfCore env input_file (some h)
  | none => html2pdfCore env input_file none

/-- Pandoc/staging/upload tail of `convert_html_to_docx` (source lines
1232–1308).  The upload-failure returns (lines 1291 and 1295) perform no
cleanup; the success path removes the temp html file, the directory and
the tracked downloads. -/
def html2docxTail (env : ConvEnv) (temp_files : List String) (fs : Fs) : RDict × Fs :=
  if ¬ env.pandocAvailable then
    (errResult "Pandoc 未安装或不可用，请先在服务器安装 pandoc。",
     (fs.rmtree env.tempDir).removeFiles temp_files)
  else
    match env.convert with
    | .error e =>
      (errResult ("Pandoc 转换失败: " ++ e), (fs.rmtree env.tempDir).removeFiles temp_files)
    | .ok _ =>
      match env.move with
      | .error e =>
        (errResult ("Error moving output file: " ++ e),
         (fs.rmtree env.tempDir).removeFiles temp_files)
      | .ok _ =>
        match env.upload with
        | .error e => (errResult ("自动上传到静态服务器异常: " ++ e), fs)
        | .ok false =>
          (errResult ("自动上传到静态服务器失败: /root/files/output_" ++ toString env.now ++ ".docx"),
           fs)
        | .ok true =>
          let fname := "output_" ++ toString env.now ++ ".docx"
          (okResult (OUTPUT_DIR ++ "/" ++ fname) (get_download_url fname),
           (fs.rmtree env.tempDir).removeFiles temp_files)

/-- Input resolution of `convert_html_to_docx` (source lines 1206–1231):
the directory is created before the URL download here, and a download
failure removes it. -/
def html2docxCore (env : ConvEnv) (input_file html_content : Option String) : RDict × Fs :=
  let fs := Fs.empty.mkdtemp env.tempDir
  match html_content with
  | some _ => html2docxTail env [] fs
  | none =>
    if optTruthy input_file ∧ isUrl (input_file.getD "") then
      match env.download with
      | .error e =>
        (errResult ("Error downloading HTML from URL: " ++ e), fs.rmtree env.tempDir)
      | .ok p => html2docxTail env [p] (fs.addFile p)
    else if optTruthy input_file then html2docxTail env [] fs
    else (errResult "You must provide either input_file or html_content", fs.rmtree env.tempDir)

/-- The `html2docx` tool (source lines 1189–1311), with the same
`fix_json_format` front end as `html2pdf`. -/
def convert_html_to_docx (env : ConvEnv) (input_file html_content : Option String) :
    RDict × Fs :=
  match html_content with
  | some h =>
    if h ≠ "" then
      match fixJson h.data with
      | JVal.str s => html2docxCore env input_file (some (String.mk s))
      | _ => (errResult "Error converting HTML to DOCX: TypeError", Fs.empty)
    else html2docxCore env input_file (some h)
  | none => html2docxCore env input_file none

/-- The `markdown2pdf` tool (source lines 1489–1597): extraction, the
emptiness check, then delegation to `convert_html_to_pdf` on the temp
markdown file, with the nested tool's leftover resources merged into the
caller's view and the caller's own directory removed on both outcomes. -/
def markdown2pdf (env : ConvEnv) (markdown_text : String) (arguments : Option String) :
    RDict × Fs :=
  let inputText? : Option String :=
    if markdown_text ≠ "" then some markdown_text
    else if optTruthy arguments then arguments
    else none
  match inputText? with
  | none => (errResult "没有找到有效的输入内容，请提供markdown_text或arguments参数", Fs.empty)
  | some input_text =>
    match fixJson input_text.data with
    | JVal.str s =>
      if pyStrip s = [] then
        (errResult "修正后的markdown内容为空，请检查输入格式", Fs.empty)
      else
        let fs := Fs.empty.mkdtemp env.tempDir
        let inner := convert_html_to_pdf { env with tempDir := env.tempDirInner }
          (some (env.tempDir ++ "/input_" ++ toString env.now ++ ".md")) none
        let fsAll := fs.union inner.2
        if rdSuccess inner.1 then
          (okResult (rdGetStrD inner.1 "output_file") (rdGetStrD inner.1 "download_url"),
           fsAll.rmtree env.tempDir)
        else (errResult (rdGetStrD inner.1 "error"), fsAll.rmtree env.tempDir)
    | _ => (errResult "Error converting Markdown to PDF: TypeError", Fs.empty)

/-- The `convert_file` dispatcher (source lines 1314–1385).  For the
`markdown`/`md` → `pdf` pair in base64 mode the source calls
`convert_html_to_pdf(file_content_base64=...)`, an unknown keyword
argument, so `TypeError` reaches the outer handler. -/
def convert_file (env : ConvEnv)
    (input_file file_content_base64 input_format output_format : Option String) :
    RDict × Fs :=
  if input_file = none ∧ file_content_base64 = none then
    (errResult "You must provide either input_file or file_content_base64", Fs.empty)
  else if ¬ optTruthy input_format ∨ ¬ optTruthy output_format then
    (errResult "You must specify both input_format and output_format", Fs.empty)
  else
    let inf := pyLower (input_format.getD "")
    let outf := pyLower (output_format.getD "")
    if inf = "docx".data ∧ outf = "pdf".data then
      if optTruthy file_content_base64 then convert_docx_to_pdf env none file_content_base64
      else convert_docx_to_pdf env input_file none
    else if inf = "pdf".data ∧ outf = "docx".data then
      if optTruthy file_content_base64 then convert_pdf_to_docx env none file_content_base64
      else convert_pdf_to_docx env input_file none
    else if (inf = "markdown".data ∨ inf = "md".data) ∧ outf = "pdf".data then
      if optTruthy file_content_base64 then
        (errResult "Error converting file: TypeError", Fs.empty)
      else convert_html_to_pdf env input_file none
    else if valid_image_formats.contains inf then
      if optTruthy file_content_base64 then
        convert_image env none file_content_base64 output_format input_format
      else convert_image env input_file none output_format none
    else
      (errResult ("Unsupported conversion: " ++ input_format.getD "" ++ " to " ++
        output_format.getD ""), Fs.empty)

/-- The `convert_content` tool (source lines 1388–1435): a direct
delegation to `convert_file` in base64 mode. -/
def convert_content (env : ConvEnv) (file_content_base64 input_format output_format : String) :
    RDict × Fs :=
  convert_file env none (some file_content_base64) (some input_format) (some output_format)

/-- The `docx2pdf_content` tool (source lines 1438–1450): delegation plus
a validity re-check that passes dicts through unchanged. -/
def convert_docx_to_pdf_content (env : ConvEnv) (file_content_base64 : String) : RDict × Fs :=
  convert_docx_to_pdf env none (some file_content_base64)

/-- Tail of `convert_pdf_to_docx_content` after URL resolution (source
lines 1467–1470). -/
def pdf2docxContentRest (env : ConvEnv) (file_content_base64 : Option String) : RDict × Fs :=
  if ¬ optTruthy file_content_base64 then
    (errResult "No base64 content provided.", Fs.empty)
  else convert_pdf_to_docx env none file_content_base64

/-- The `pdf2docx_content` tool (source lines 1453–1470): a URL input is
downloaded straight into an in-memory base64 string (no temp file). -/
def convert_pdf_to_docx_content (env : ConvEnv)
    (file_content_base64 input_file : Option String) : RDict × Fs :=
  if optTruthy input_file ∧ isUrl (input_file.getD "") then
    match env.download with
    | .error e => (errResult ("Error downloading file from URL: " ++ e), Fs.empty)
    | .ok _ => pdf2docxContentRest env (some "ZG93bmxvYWRlZA==")
  else pdf2docxContentRest env file_content_base64

/-- The `markdown2pdf_content` tool (source lines 1473–1485): delegates to
`convert_file` with the `md`/`pdf` pair in base64 mode, which always ends
in that dispatcher's `TypeError` failure. -/
def convert_markdown_to_pdf_content (env : ConvEnv) (file_content_base64 : String) :
    RDict × Fs :=
  convert_file env none (some file_content_base64) (some "md") (some "pdf")

/-- The `markdown_convert` tool (source lines 1877–1946).  A `None`
`output_format` raises `AttributeError` at `.lower()` and lands in the
outer handler. -/
def markdown_convert (env : ConvEnv) (output_format markdown_text content : Option String) :
    RDict × Fs :=
  let inputText? : Option String :=
    if optTruthy markdown_text then markdown_text
    else if optTruthy content then content
    else none
  match inputText? with
  | none => (errResult "未找到有效的markdown内容，请提供markdown_text或content参数", Fs.empty)
  | some input_text =>
    match output_format with
    | none => (errResult "转换失败: AttributeError", Fs.empty)
    | some f =>
      if pyLower f = "docx".data then markdown2docx env input_text none
      else if pyLower f = "pdf".data then markdown2pdf env input_text none
      else (errResult ("不支持的输出格式: " ++ f), Fs.empty)

/-! ## Supporting lemmas -/

theorem head?_dropWhile_false {α} {p : α → Bool} {l : List α} {c : α}
    (h : (l.dropWhile p).head? = some c) : p c = false := by
  have hh := List.head?_dropWhile_not p l
  rw [h] at hh
  exact hh

theorem dropWhile_eq_self_of_head {α} {p : α → Bool} {l : List α}
    (h : ∀ c, l.head? = some c → p c = false) : l.dropWhile p = l := by
  cases l with
  | nil => rfl
  | cons a tl =>
    exact List.dropWhile_cons_of_neg (by simp [h a rfl])

theorem dropWhile_idem {α} (p : α → Bool) (l : List α) :
    (l.dropWhile p).dropWhile p = l.dropWhile p :=
  dropWhile_eq_self_of_head (fun _ hc => head?_dropWhile_false hc)

theorem pyRstripWs_prefix (l : Chars) : pyRstripWs l <+: l := by
  unfold pyRstripWs
  nth_rewrite 2 [show l = l.reverse.reverse from (List.reverse_reverse l).symm]
  exact List.reverse_prefix.mpr (List.dropWhile_suffix isPyWs)

theorem head?_of_initialSegment {α} {l m : List α} {c : α} (h : m <+: l)
    (hm : m.head? = some c) : l.head? = some c := by
  obtain ⟨t, rfl⟩ := h
  cases m with
  | nil => simp at hm
  | cons a tl => simpa using hm

theorem pyStrip_head_not_ws {l : Chars} {c : Char}
    (h : (pyStrip l).head? = some c) : isPyWs c = false := by
  have hpre : pyStrip l <+: l.dropWhile isPyWs := pyRstripWs_prefix (l.dropWhile isPyWs)
  exact head?_dropWhile_false (head?_of_initialSegment hpre h)

theorem pyRstripWs_idem (l : Chars) : pyRstripWs (pyRstripWs l) = pyRstripWs l := by
  unfold pyRstripWs
  rw [List.reverse_reverse, dropWhile_idem]

theorem pyStrip_idem (l : Chars) : pyStrip (pyStrip l) = pyStrip l := by
  have h1 : (pyStrip l).dropWhile isPyWs = pyStrip l :=
    dropWhile_eq_self_of_head (fun _ hc => pyStrip_head_not_ws hc)
  show pyRstripWs ((pyStrip l).dropWhile isPyWs) = pyStrip l
  rw [h1]
  show pyRstripWs (pyRstripWs (l.dropWhile isPyWs)) = pyStrip l
  rw [pyRstripWs_idem]
  rfl

/-- Plain-text pass-through: once the stripped input starts with neither
`{` nor `"`, the engine returns the stripped input (source lines 351–365). -/
theorem fixJson_plain (x : Chars) (h1 : (pyStrip x).head? ≠ some '\x7b')
    (h2 : (pyStrip x).head? ≠ some '"') : fixJson x = JVal.str (pyStrip x) := by
  unfold fixJson
  by_cases hx : x = []
  · rw [if_pos hx, hx]
    rfl
  · rw [if_neg hx]
    by_cases hc : containsSub ['\n'] (pyStrip x) = true
    · rw [if_pos ⟨h1, h2, hc⟩]
    · rw [if_neg (fun hh => hc hh.2.2), if_pos ⟨h1, h2⟩]

theorem parseMembers_obj : ∀ (f : Nat) (l : Chars) (acc : List (Chars × JVal)) (v : JVal)
    (r : Chars), parseMembers f l acc = some (v, r) → ∃ kvs, v = JVal.obj kvs := by
  intro f
  induction f with
  | zero =>
    intro l acc v r h
    simp [parseMembers] at h
  | succ f ih =>
    intro l acc v r h
    unfold parseMembers at h
    repeat' split at h
    all_goals first
      | (injection h with h1; injection h1 with h2 h3; exact ⟨_, h2.symm⟩)
      | (exact ih _ _ _ _ h)
      | exact absurd h (by simp)

theorem parseElems_arr : ∀ (f : Nat) (l : Chars) (acc : List JVal) (v : JVal)
    (r : Chars), parseElems f l acc = some (v, r) → ∃ xs, v = JVal.arr xs := by
  intro f
  induction f with
  | zero =>
    intro l acc v r h
    simp [parseElems] at h
  | succ f ih =>
    intro l acc v r h
    unfold parseElems at h
    repeat' split at h
    all_goals first
      | (injection h with h1; injection h1 with h2 h3; exact ⟨_, h2.symm⟩)
      | (exact ih _ _ _ _ h)
      | exact absurd h (by simp)

/-- An object value can only come out of an input whose first character is
`{`: every other dispatch branch of `parseVal` produces a different
constructor. -/
theorem parseVal_obj_head {f : Nat} {l : Chars} {kvs : List (Chars × JVal)} {r : Chars}
    (h : parseVal f l = some (JVal.obj kvs, r)) : l.head? = some '\x7b' := by
  cases f with
  | zero => simp [parseVal] at h
  | succ f =>
    unfold parseVal at h
    repeat' split at h
    all_goals first
      | rfl
      | (obtain ⟨xs, hxs⟩ := parseElems_arr _ _ _ _ _ h; exact absurd hxs (by simp))
      | (obtain ⟨kvs', hk⟩ := parseMembers_obj _ _ _ _ _ h; rfl)
      | (rcases Option.map_eq_some'.mp h with ⟨p, hp1, hp2⟩; injection hp2 with h2 h3;
         exact absurd h2.symm (by simp))
      | (exact absurd h (by simp))

/-- A string value comes out of every successful parse of an input whose
first character is `"`. -/
theorem parseVal_quote_isStr {f : Nat} {l : Chars} {v : JVal} {r tl : Chars}
    (hl : l = '"' :: tl) (h : parseVal f l = some (v, r)) : v.isStr = true := by
  subst hl
  cases f with
  | zero => simp [parseVal] at h
  | succ f =>
    unfold parseVal at h
    rcases Option.map_eq_some'.mp h with ⟨p, hp1, hp2⟩
    injection hp2 with h2 h3
    rw [← h2]
    rfl

theorem isJsonWs_imp_isPyWs {c : Char} (h : isJsonWs c = true) : isPyWs c = true := by
  unfold isJsonWs at h
  simp only [Bool.or_eq_true, decide_eq_true_eq] at h
  rcases h with ((h | h) | h) | h <;> subst h <;> decide

/-- When the input already starts with a non-whitespace character, the
leading-whitespace skip of `json_loads` is the identity. -/
theorem dropJsonWs_of_strip (l : Chars) : (pyStrip l).dropWhile isJsonWs = pyStrip l := by
  refine dropWhile_eq_self_of_head (fun c hc => ?_)
  have hp := pyStrip_head_not_ws hc
  cases hj : isJsonWs c with
  | false => rfl
  | true => rw [isJsonWs_imp_isPyWs hj] at hp; exact absurd hp (by simp)

/-- A successful `json_loads` of a stripped text yielding an object forces
the text to begin with `{`. -/
theorem json_loads_obj_head {l : Chars} {kvs : List (Chars × JVal)}
    (h : json_loads (pyStrip l) = some (JVal.obj kvs)) :
    (pyStrip l).head? = some '\x7b' := by
  unfold json_loads at h
  rw [dropJsonWs_of_strip] at h
  split at h
  · rename_i v rest hp
    split at h
    · injection h with h1
      rw [h1] at hp
      exact parseVal_obj_head hp
    · exact absurd h (by simp)
  · exact absurd h (by simp)

theorem json_loads_quote_isStr {l tl : Chars} {v : JVal} (hl : l = '"' :: tl)
    (h : json_loads l = some v) : v.isStr = true := by
  unfold json_loads at h
  rw [hl, List.dropWhile_cons_of_neg (by decide)] at h
  split at h
  · rename_i w rest hp
    split at h
    · injection h with h1
      rw [← h1]
      exact parseVal_quote_isStr rfl hp
    · exact absurd h (by simp)
  · exact absurd h (by simp)

theorem stage5_isStr {t : Chars} (h : t.head? = some '"') : (stage5 t).isStr = true := by
  obtain ⟨tl, rfl⟩ : ∃ tl, t = '"' :: tl := by
    cases t with
    | nil => simp at h
    | cons a tl =>
      refine ⟨tl, ?_⟩
      injection h with h1
      rw [h1]
  unfold stage5
  split
  · rename_i v hv
    exact json_loads_quote_isStr rfl hv
  · split <;> rfl

theorem stage6_none {t : Chars} (h : t.head? ≠ some '\x7b') : stage6 t = none := by
  unfold stage6
  rw [if_neg (fun hc => h hc.1)]

theorem stage7_none {t : Chars} (h : t.head? ≠ some '\x7b') : stage7 t = none := by
  unfold stage7
  rw [if_neg (fun hc => h hc.1)]

theorem stage8_none {t : Chars} (h : t.head? ≠ some '\x7b') : stage8 t = none := by
  unfold stage8
  rw [if_neg h]

theorem findSome?_isStr {α} (f : α → Option JVal)
    (hf : ∀ a v, f a = some v → v.isStr = true) :
    ∀ (l : List α) (v : JVal), l.findSome? f = some v → v.isStr = true := by
  intro l
  induction l with
  | nil =>
    intro v h
    simp [List.findSome?] at h
  | cons a as ih =>
    intro v h
    rw [List.findSome?_cons] at h
    cases hfa : f a with
    | some w =>
      rw [hfa] at h
      exact hf a v (by rw [hfa]; exact h)
    | none =>
      rw [hfa] at h
      exact ih v h

theorem stage9_isStr {t : Chars} {v : JVal} (h : stage9 t = some v) : v.isStr = true := by
  refine findSome?_isStr _ ?_ priorityFields v h
  intro k w hw
  cases hsk : searchKey k t with
  | some c =>
    rw [hsk] at hw
    injection hw with h1
    rw [← h1]
    rfl
  | none =>
    rw [hsk] at hw
    exact absurd hw (by simp)

theorem stage10_isStr {t : Chars} {v : JVal} (h : stage10 t = some v) : v.isStr = true := by
  unfold stage10 at h
  try dsimp only at h
  repeat' (split at h <;> try dsimp only at h)
  all_goals first
    | (injection h with h1; rw [← h1]; rfl)
    | exact absurd h (by simp)

theorem stage11_isStr {t : Chars} {v : JVal} (h : stage11 t = some v) : v.isStr = true := by
  unfold stage11 at h
  try dsimp only at h
  repeat' (split at h <;> try dsimp only at h)
  all_goals first
    | (injection h with h1; rw [← h1]; rfl)
    | exact absurd h (by simp)

theorem stage12_isStr {t : Chars} {v : JVal} (h : stage12 t = some v) : v.isStr = true := by
  unfold stage12 at h
  try dsimp only at h
  repeat' (split at h <;> try dsimp only at h)
  all_goals first
    | (injection h with h1; rw [← h1]; rfl)
    | exact absurd h (by simp)

theorem stage13_isStr {t : Chars} {v : JVal} (h : stage13 t = some v) : v.isStr = true := by
  unfold stage13 at h
  try dsimp only at h
  repeat' (split at h <;> try dsimp only at h)
  all_goals first
    | (injection h with h1; rw [← h1]; rfl)
    | exact absurd h (by simp)

/-- Outside the object-shaped region (stripped input not starting with `{`)
every return point of the engine yields a plain string. -/
theorem fixJson_isStr_of_not_obj (x : Chars) (h : (pyStrip x).head? ≠ some '\x7b') :
    (fixJson x).isStr = true := by
  by_cases hq : (pyStrip x).head? = some '"'
  case neg =>
    rw [fixJson_plain x h hq]
    rfl
  case pos =>
    unfold fixJson
    by_cases hx : x = []
    · rw [if_pos hx]
      rfl
    · rw [if_neg hx]
      rw [if_neg (fun hc => hc.2.1 hq)]
      rw [if_neg (fun hc => hc.2 hq)]
      by_cases hs : ['"'].isSuffixOf (pyStrip x) = true
      · rw [if_pos ⟨hq, hs⟩]
        exact stage5_isStr hq
      · rw [if_neg (fun hc => hs hc.2)]
        rw [stage6_none (by rw [hq]; decide), stage7_none (by rw [hq]; decide),
          stage8_none (by rw [hq]; decide)]
        cases h9 : stage9 (pyStrip x) with
        | some v =>
          simp only [h9]
          exact stage9_isStr h9
        | none =>
          simp only [h9]
          cases h10 : stage10 (pyStrip x) with
          | some v =>
            simp only [h10]
            exact stage10_isStr h10
          | none =>
            simp only [h10]
            cases h11 : stage11 (pyStrip x) with
            | some v =>
              simp only [h11]
              exact stage11_isStr h11
            | none =>
              simp only [h11]
              cases h12 : stage12 (pyStrip x) with
              | some v =>
                simp only [h12]
                exact stage12_isStr h12
              | none =>
                simp only [h12]
                cases h13 : stage13 (pyStrip x) with
                | some v =>
                  simp only [h13]
                  exact stage13_isStr h13
                | none =>
                  simp only [h13]
                  rfl

theorem success_not_failure {d : RDict} (h : isSuccessShape d = true) :
    isFailureShape d = false := by
  unfold isSuccessShape at h
  split at h
  · rfl
  · exact absurd h (by simp)

theorem failure_not_success {d : RDict} (h : isFailureShape d = true) :
    isSuccessShape d = false := by
  unfold isFailureShape at h
  split at h
  · rfl
  · exact absurd h (by simp)

/-- A result dict has exactly one of the two recognized shapes. -/
def exactlyOneShape (d : RDict) : Prop :=
  (isSuccessShape d = true ∨ isFailureShape d = true) ∧
  ¬ (isSuccessShape d = true ∧ isFailureShape d = true)

theorem docx2pdf_shape (env : ConvEnv) (i b : Option String) :
    isSuccessShape (convert_docx_to_pdf env i b).1 = true ∨
    isFailureShape (convert_docx_to_pdf env i b).1 = true := by
  unfold convert_docx_to_pdf docx2pdfMain docx2pdfTail
  repeat' split
  all_goals first
    | exact Or.inr rfl
    | exact Or.inl rfl

theorem pdf2docx_always_failure (env : ConvEnv) (i b : Option String) :
    isFailureShape (convert_pdf_to_docx env i b).1 = true := by
  unfold convert_pdf_to_docx pdf2docxMain pdf2docxTail
  repeat' split
  all_goals rfl

theorem markdown2docx_shape (env : ConvEnv) (mt : String) (args : Option String) :
    isSuccessShape (markdown2docx env mt args).1 = true ∨
    isFailureShape (markdown2docx env mt args).1 = true := by
  unfold markdown2docx markdown2docxTail
  try dsimp only
  repeat' (split <;> try dsimp only)
  all_goals first
    | exact Or.inr rfl
    | exact Or.inl rfl

theorem image_shape (env : ConvEnv) (i b outf inf : Option String) :
    isSuccessShape (convert_image env i b outf inf).1 = true ∨
    isFailureShape (convert_image env i b outf inf).1 = true := by
  unfold convert_image imageMain imageTail
  try dsimp only
  repeat' (split <;> try dsimp only)
  all_goals first
    | exact Or.inr rfl
    | exact Or.inl rfl

theorem excel_shape (env : ConvEnv) (i : Option String) :
    isSuccessShape (convert_excel_to_csv env i).1 = true ∨
    isFailureShape (convert_excel_to_csv env i).1 = true := by
  unfold convert_excel_to_csv excelRest
  try dsimp only
  repeat' (split <;> try dsimp only)
  all_goals first
    | exact Or.inr rfl
    | exact Or.inl rfl

theorem html2pdf_shape (env : ConvEnv) (i h : Option String) :
    isSuccessShape (convert_html_to_pdf env i h).1 = true ∨
    isFailureShape (convert_html_to_pdf env i h).1 = true := by
  unfold convert_html_to_pdf html2pdfCore
  try dsimp only
  repeat' (split <;> try dsimp only)
  all_goals first
    | exact Or.inr rfl
    | exact Or.inl rfl

theorem html2docx_shape (env : ConvEnv) (i h : Option String) :
    isSuccessShape (convert_html_to_docx env i h).1 = true ∨
    isFailureShape (convert_html_to_docx env i h).1 = true := by
  unfold convert_html_to_docx html2docxCore html2docxTail
  try dsimp only
  repeat' (split <;> try dsimp only)
  all_goals first
    | exact Or.inr rfl
    | exact Or.inl rfl

theorem markdown2pdf_shape (env : ConvEnv) (mt : String) (args : Option String) :
    isSuccessShape (markdown2pdf env mt args).1 = true ∨
    isFailureShape (markdown2pdf env mt args).1 = true := by
  unfold markdown2pdf
  try dsimp only
  repeat' (split <;> try dsimp only)
  all_goals first
    | exact Or.inr rfl
    | exact Or.inl rfl

theorem convert_file_shape (env : ConvEnv) (i b inf outf : Option String) :
    isSuccessShape (convert_file env i b inf outf).1 = true ∨
    isFailureShape (convert_file env i b inf outf).1 = true := by
  unfold convert_file
  try dsimp only
  repeat' (split <;> try dsimp only)
  all_goals first
    | exact Or.inr rfl
    | exact Or.inl rfl
    | exact docx2pdf_shape _ _ _
    | exact Or.inr (pdf2docx_always_failure _ _ _)
    | exact html2pdf_shape _ _ _
    | exact image_shape _ _ _ _ _

theorem pdf2docx_content_shape (env : ConvEnv) (b i : Option String) :
    isSuccessShape (convert_pdf_to_docx_content env b i).1 = true ∨
    isFailureShape (convert_pdf_to_docx_content env b i).1 = true := by
  unfold convert_pdf_to_docx_content pdf2docxContentRest
  try dsimp only
  repeat' (split <;> try dsimp only)
  all_goals first
    | exact Or.inr rfl
    | exact Or.inl rfl
    | exact Or.inr (pdf2docx_always_failure _ _ _)

theorem markdown_convert_shape (env : ConvEnv) (outf mt ct : Option String) :
    isSuccessShape (markdown_convert env outf mt ct).1 = true ∨
    isFailureShape (markdown_convert env outf mt ct).1 = true := by
  unfold markdown_convert
  try dsimp only
  repeat' (split <;> try dsimp only)
  all_goals first
    | exact Or.inr rfl
    | exact Or.inl rfl
    | exact markdown2docx_shape _ _ _
    | exact markdown2pdf_shape _ _ _

theorem exactlyOneShape_of_shape {d : RDict}
    (h : isSuccessShape d = true ∨ isFailureShape d = true) : exactlyOneShape d := by
  refine ⟨h, ?_⟩
  intro hb
  have hh := success_not_failure hb.1
  rw [hb.2] at hh
  exact absurd hh (by simp)

/-- Effect environment in which every external action succeeds. -/
def envAllOk : ConvEnv :=
  ⟨Except.ok "/tmp/dl.pdf", "/tmp/work1", 111, Except.ok (), Except.ok (), Except.ok (),
   Except.ok true, true, "/tmp/work2"⟩

/-! ## Claim theorems -/

/-- C1, counterexample: on the well-formed input `{"markdown_text": null}`
the engine returns the parsed field value `null` — not a non-null plain
text string, refuting the claim as stated. -/
theorem c1_counterexample :
    fix_json_format "\x7b\"markdown_text\": null\x7d" = JVal.null ∧
    JVal.isStr JVal.null = false :=
  ⟨rfl, rfl⟩

/-- C1, amended: `fix_json_format` is total (never raises — modelled by a
total function), and its result is a plain text string for every input
whose stripped form does not start with `\x7b`; inputs that do start with
`\x7b` may get a non-string extracted JSON field value back (e.g. `null`). -/
theorem c1_amended_total_string (x : String)
    (h : (pyStrip x.data).head? ≠ some '\x7b') :
    (fix_json_format x).isStr = true :=
  fixJson_isStr_of_not_obj x.data h

/-- C1 witness: a concrete non-object input satisfying the hypothesis. -/
theorem c1_witness :
    (pyStrip "hello world".data).head? ≠ some '\x7b' ∧
    (fix_json_format "hello world").isStr = true :=
  ⟨by decide, c1_amended_total_string "hello world" (by decide)⟩

/-- C2, counterexample: the escaped-JSON-string input `"{\"a\": \"b\"}"`
extracts to the object text `{"a": "b"}`, and a second run extracts that
object's sole value `b`, so `extract (extract x) ≠ extract x`. -/
theorem c2_counterexample :
    fix_json_format "\"\x7b\\\"a\\\": \\\"b\\\"\x7d\"" =
      JVal.str "\x7b\"a\": \"b\"\x7d".data ∧
    fix_json_format "\x7b\"a\": \"b\"\x7d" = JVal.str "b".data ∧
    "b".data ≠ "\x7b\"a\": \"b\"\x7d".data :=
  ⟨rfl, rfl, by decide⟩

/-- C2, amended: idempotence holds on the plain-text region — when the
stripped input starts with neither `\x7b` nor `"`, the engine returns the
stripped input, and running it again on that output returns it unchanged;
on outputs that look like structured data a second run can extract
further. -/
theorem c2_amended_idempotent_on_plain_text (x : String)
    (h1 : (pyStrip x.data).head? ≠ some '\x7b')
    (h2 : (pyStrip x.data).head? ≠ some '"') :
    fix_json_format x = JVal.str (pyStrip x.data) ∧
    fixJson (pyStrip x.data) = JVal.str (pyStrip x.data) := by
  constructor
  · exact fixJson_plain x.data h1 h2
  · have h1' : (pyStrip (pyStrip x.data)).head? ≠ some '\x7b' := by
      rw [pyStrip_idem]
      exact h1
    have h2' : (pyStrip (pyStrip x.data)).head? ≠ some '"' := by
      rw [pyStrip_idem]
      exact h2
    rw [fixJson_plain (pyStrip x.data) h1' h2', pyStrip_idem]

/-- C2 witness: a concrete plain-text input satisfying both hypotheses. -/
theorem c2_witness :
    (pyStrip "plain text".data).head? ≠ some '\x7b' ∧
    (pyStrip "plain text".data).head? ≠ some '"' ∧
    (fix_json_format "plain text" = JVal.str (pyStrip "plain text".data) ∧
     fixJson (pyStrip "plain text".data) = JVal.str (pyStrip "plain text".data)) :=
  ⟨by decide, by decide,
   c2_amended_idempotent_on_plain_text "plain text" (by decide) (by decide)⟩

/-- C3: every conversion tool of the server — `docx2pdf`, `pdf2docx`,
`convert_image`, `excel2csv`, `html2pdf`, `html2docx`, `convert_file`,
`convert_content`, `docx2pdf_content`, `pdf2docx_content`,
`markdown2pdf_content`, `markdown2pdf`, `markdown2docx` and
`markdown_convert` — returns exactly one of the two recognized result
shapes `{success: true, output_file, download_url}` /
`{success: false, error}` for every effect environment and argument
combination; no other top-level shape and no escaping exception exists in
the model. -/
theorem c3_uniform_result_shapes (env : ConvEnv) (i b outf inf args : Option String)
    (mt bs infS outfS : String) :
    exactlyOneShape (convert_docx_to_pdf env i b).1 ∧
    exactlyOneShape (convert_pdf_to_docx env i b).1 ∧
    exactlyOneShape (convert_image env i b outf inf).1 ∧
    exactlyOneShape (convert_excel_to_csv env i).1 ∧
    exactlyOneShape (convert_html_to_pdf env i b).1 ∧
    exactlyOneShape (convert_html_to_docx env i b).1 ∧
    exactlyOneShape (convert_file env i b inf outf).1 ∧
    exactlyOneShape (convert_content env bs infS outfS).1 ∧
    exactlyOneShape (convert_docx_to_pdf_content env bs).1 ∧
    exactlyOneShape (convert_pdf_to_docx_content env b i).1 ∧
    exactlyOneShape (convert_markdown_to_pdf_content env bs).1 ∧
    exactlyOneShape (markdown2pdf env mt args).1 ∧
    exactlyOneShape (markdown2docx env mt args).1 ∧
    exactlyOneShape (markdown_convert env outf args b).1 :=
  ⟨exactlyOneShape_of_shape (docx2pdf_shape env i b),
   exactlyOneShape_of_shape (Or.inr (pdf2docx_always_failure env i b)),
   exactlyOneShape_of_shape (image_shape env i b outf inf),
   exactlyOneShape_of_shape (excel_shape env i),
   exactlyOneShape_of_shape (html2pdf_shape env i b),
   exactlyOneShape_of_shape (html2docx_shape env i b),
   exactlyOneShape_of_shape (convert_file_shape env i b inf outf),
   exactlyOneShape_of_shape (convert_file_shape env none (some bs) (some infS) (some outfS)),
   exactlyOneShape_of_shape (docx2pdf_shape env none (some bs)),
   exactlyOneShape_of_shape (pdf2docx_content_shape env b i),
   exactlyOneShape_of_shape (convert_file_shape env none (some bs) (some "md") (some "pdf")),
   exactlyOneShape_of_shape (markdown2pdf_shape env mt args),
   exactlyOneShape_of_shape (markdown2docx_shape env mt args),
   exactlyOneShape_of_shape (markdown_convert_shape env outf args b)⟩

/-- C4: the claim (cleanup on every exit path) is right and the code is
wrong.  With every external action succeeding, `convert_pdf_to_docx` ends
in the `NameError` failure return of its success path, and the working
directory created by `mkdtemp` is still on disk after that Failure
outcome. -/
theorem c4_failing_input_leaks_workdir :
    (convert_pdf_to_docx envAllOk none (some "JVBERi0=")).1 =
      errResult "Error converting PDF to DOCX: name \x27temp_html_file\x27 is not defined" ∧
    (convert_pdf_to_docx envAllOk none (some "JVBERi0=")).2.dirs = ["/tmp/work1"] :=
  ⟨rfl, rfl⟩

/-- C5: whenever conversion, staging and upload all succeed,
`convert_pdf_to_docx` still returns the failure shape (the success path
evaluates the undefined name `temp_html_file`), so it can never return a
success-shaped result. -/
theorem c5_pdf2docx_never_succeeds (env : ConvEnv) (i b : Option String)
    (hc : env.convert = Except.ok ()) (hm : env.move = Except.ok ())
    (hu : env.upload = Except.ok true) :
    isFailureShape (convert_pdf_to_docx env i b).1 = true ∧
    isSuccessShape (convert_pdf_to_docx env i b).1 = false :=
  ⟨pdf2docx_always_failure env i b,
   failure_not_success (pdf2docx_always_failure env i b)⟩

/-- C5 witness: the all-success environment discharges the hypotheses. -/
theorem c5_witness :
    envAllOk.convert = Except.ok () ∧ envAllOk.move = Except.ok () ∧
    envAllOk.upload = Except.ok true ∧
    (isFailureShape (convert_pdf_to_docx envAllOk none (some "JVBERi0=")).1 = true ∧
     isSuccessShape (convert_pdf_to_docx envAllOk none (some "JVBERi0=")).1 = false) :=
  ⟨rfl, rfl, rfl, c5_pdf2docx_never_succeeds envAllOk none (some "JVBERi0=") rfl rfl rfl⟩

/-- C6, counterexample: the input ` a` does not start with `\x7b` or `"`
but is returned stripped, not unchanged. -/
theorem c6_counterexample :
    fix_json_format " a" = JVal.str "a".data ∧ "a".data ≠ " a".data :=
  ⟨rfl, by decide⟩

/-- C6, amended: for every input whose *stripped* form starts with neither
`\x7b` nor `"`, the engine returns the stripped input (leading and
trailing whitespace removed, the rest untouched). -/
theorem c6_amended_plain_text_stripped (x : String)
    (h1 : (pyStrip x.data).head? ≠ some '\x7b')
    (h2 : (pyStrip x.data).head? ≠ some '"') :
    fix_json_format x = JVal.str (pyStrip x.data) :=
  fixJson_plain x.data h1 h2

/-- C6 witness: a concrete plain-text input. -/
theorem c6_witness :
    (pyStrip "abc".data).head? ≠ some '\x7b' ∧
    (pyStrip "abc".data).head? ≠ some '"' ∧
    fix_json_format "abc" = JVal.str (pyStrip "abc".data) :=
  ⟨by decide, by decide, c6_amended_plain_text_stripped "abc" (by decide) (by decide)⟩

/-- Concrete input for the C7 counterexample: a well-formed JSON object
whose `markdown_text` key is written with the escape `_`, so the raw
text lacks the literal `"markdown_text"` marker, and whose structural
line break corrupts the engine's regex preprocessing. -/
def c7badInput : String :=
  "\x7b\"a\\\"\": \"z\",\n\"text\": \"bad\", \"markdown\\u005ftext\": \"good\"\x7d"

/-- C7, counterexample: `c7badInput` parses as a well-formed object whose
`markdown_text` field is `good`, yet the engine returns the lower-priority
`text` field `bad`. -/
theorem c7_counterexample :
    json_loads c7badInput.data =
      some (JVal.obj [("a\"".data, JVal.str "z".data), ("text".data, JVal.str "bad".data),
        ("markdown_text".data, JVal.str "good".data)]) ∧
    fix_json_format c7badInput = JVal.str "bad".data ∧
    "bad".data ≠ "good".data :=
  ⟨rfl, rfl, by decide⟩

/-- C7, amended: for every input whose stripped form contains the literal
substring `"markdown_text"` and parses as a well-formed JSON object with
key `markdown_text`, the engine returns exactly that field's value, in
preference to any other present key. -/
theorem c7_amended_markdown_text_wins (x : String) (kvs : List (Chars × JVal))
    (h1 : json_loads (pyStrip x.data) = some (JVal.obj kvs))
    (h2 : containsSub markerMD (pyStrip x.data) = true)
    (h3 : dictContains kvs mdKey = true) :
    fix_json_format x = dictGetD kvs mdKey := by
  have hhead : (pyStrip x.data).head? = some '\x7b' := json_loads_obj_head h1
  have hx : x.data ≠ [] := by
    intro he
    rw [he] at hhead
    simp [pyStrip] at hhead
  have h6 : stage6 (pyStrip x.data) = some (dictGetD kvs mdKey) := by
    unfold stage6
    rw [if_pos ⟨hhead, h2⟩]
    simp only [h1]
    rw [if_pos h3]
  unfold fix_json_format fixJson
  rw [if_neg hx]
  rw [if_neg (fun hc => hc.1 hhead)]
  rw [if_neg (fun hc => hc.1 hhead)]
  rw [if_neg (fun hc => by rw [hhead] at hc; exact absurd hc.1 (by decide))]
  simp only [h6]

/-- C7 witness: a concrete object input with the literal marker. -/
theorem c7_witness :
    json_loads (pyStrip "\x7b\"markdown_text\": \"v\"\x7d".data) =
      some (JVal.obj [("markdown_text".data, JVal.str "v".data)]) ∧
    containsSub markerMD (pyStrip "\x7b\"markdown_text\": \"v\"\x7d".data) = true ∧
    dictContains [("markdown_text".data, JVal.str "v".data)] mdKey = true ∧
    fix_json_format "\x7b\"markdown_text\": \"v\"\x7d" =
      dictGetD [("markdown_text".data, JVal.str "v".data)] mdKey :=
  ⟨rfl, rfl, rfl, c7_amended_markdown_text_wins "\x7b\"markdown_text\": \"v\"\x7d" _ rfl rfl rfl⟩

/-- C8: the truncated fragment `{"markdown_text": "# Title\n\nBody` (no
closing quote or brace, `\n` written as backslash-n) extracts to
`# Title`, blank line, `Body` with the escapes turned into literal
newlines. -/
theorem c8_truncated_fragment_repaired :
    fix_json_format "\x7b\"markdown_text\": \"# Title\\n\\nBody" =
      JVal.str "# Title\n\nBody".data :=
  rfl

/-- C9: the nested envelope `{"arguments": "{\"markdown_text\": \"X\"}",
"name": "..."}` extracts to `X`. -/
theorem c9_nested_envelope_unwrapped :
    fix_json_format
      "\x7b\"arguments\": \"\x7b\\\"markdown_text\\\": \\\"X\\\"\x7d\", \"name\": \"...\"\x7d" =
      JVal.str "X".data :=
  rfl

/-- C10, counterexample: with both `input_file` and `file_content_base64`
populated, `convert_docx_to_pdf` is not rejected — it proceeds (base64
content wins), allocates its working directory, and returns success. -/
theorem c10_counterexample :
    isSuccessShape (convert_docx_to_pdf envAllOk (some "/doc.docx") (some "QUJD")).1 = true ∧
    (convert_docx_to_pdf envAllOk (some "/doc.docx") (some "QUJD")).2.everDirs =
      ["/tmp/work1"] :=
  ⟨rfl, rfl⟩

/-- C10, amended: only a request with *no* populated input kind is rejected
with a Failure before any temporary resource is allocated; a request with
both kinds populated proceeds with the inline base64 content taking
precedence. -/
theorem c10_amended_empty_request_rejected (env : ConvEnv) :
    (convert_docx_to_pdf env none none).1 =
      errResult "You must provide either input_file or file_content_base64" ∧
    (convert_docx_to_pdf env none none).2.everDirs = [] :=
  ⟨rfl, rfl⟩
